import Mathlib

/-!
Verification of the buildpy configuration model and workflows.

The Python source (src/buildpy.py) is shallowly embedded below:
mutable `self.cfg` dictionaries become the `Cfg` structure passed by value,
Python `list.remove` / `dict` deletion (which raise `ValueError` / `KeyError`)
become `Except Err` computations, and file-system workflows become explicit
state transformers over small state records.
-/

namespace BuildPy

/-- Errors raised by the embedded Python operations: `ValueError` from
`list.remove`, `KeyError` from `dict` lookup/deletion. -/
inductive Err where
  | valueError (x : String)
  | keyError (k : String)
deriving DecidableEq, Repr

/-- Python `list.remove(x)`: removes the first occurrence of `x`,
raising `ValueError` when `x` is not in the list. -/
def listRemove (l : List String) (x : String) : Except Err (List String) :=
  if x ∈ l then .ok (l.erase x) else .error (.valueError x)

/-- Association-list model of a Python `dict[str, list[str]]` (insertion
ordered, as Python dicts are). -/
abbrev ExtDict := List (String × List String)

/-- Python `k in d` for a dict. -/
def dictHas (d : ExtDict) (k : String) : Bool :=
  d.any (fun p => p.1 == k)

/-- Python `d[k]` as an optional lookup. -/
def dictGet (d : ExtDict) (k : String) : Option (List String) :=
  (d.find? (fun p => p.1 == k)).map (·.2)

/-- Python `d[k] = v`: replaces the value in place when the key exists,
otherwise appends the new binding (insertion order semantics). -/
def dictSet (d : ExtDict) (k : String) (v : List String) : ExtDict :=
  if dictHas d k then d.map (fun p => if p.1 == k then (k, v) else p)
  else d ++ [(k, v)]

/-- Python `d.update(kvs)`: sequential `d[k] = v` for each pair. -/
def dictUpdate (d : ExtDict) (kvs : List (String × List String)) : ExtDict :=
  kvs.foldl (fun d p => dictSet d p.1 p.2) d

/-- Python `del d[k]`: removes the binding, raising `KeyError` if absent. -/
def dictDel (d : ExtDict) (k : String) : Except Err ExtDict :=
  if dictHas d k then .ok (d.filter (fun p => ¬ (p.1 == k))) else .error (.keyError k)

/-- The four named buckets of the configuration dictionary. -/
inductive Bucket where
  | core
  | shared
  | static
  | disabled
deriving DecidableEq, Repr

/-- The configuration state `self.cfg`: the `header` lines, the `extensions`
build-rule table and the four buckets `core`/`shared`/`static`/`disabled`. -/
structure Cfg where
  header : List String
  extensions : ExtDict
  core : List String
  shared : List String
  static : List String
  disabled : List String
deriving DecidableEq, Repr

/-- Read `self.cfg[b]` for a bucket name `b`. -/
def Cfg.get (c : Cfg) : Bucket → List String
  | .core => c.core
  | .shared => c.shared
  | .static => c.static
  | .disabled => c.disabled

/-- Write `self.cfg[b] = l` for a bucket name `b`. -/
def Cfg.set (c : Cfg) : Bucket → List String → Cfg
  | .core, l => { c with core := l }
  | .shared, l => { c with shared := l }
  | .static, l => { c with static := l }
  | .disabled, l => { c with disabled := l }

/-- The `BASE_CONFIG` table of src/buildpy.py, transcribed verbatim. -/
def BASE_CONFIG : Cfg where
  header := [
    "DESTLIB=$(LIBDEST)",
    "MACHDESTLIB=$(BINLIBDEST)",
    "DESTPATH=",
    "SITEPATH=",
    "TESTPATH=",
    "COREPYTHONPATH=$(DESTPATH)$(SITEPATH)$(TESTPATH)",
    "PYTHONPATH=$(COREPYTHONPATH)",
    "OPENSSL=$(srcdir)/../../install/openssl",
    "BZIP2=$(srcdir)/../../install/bzip2",
    "LZMA=$(srcdir)/../../install/xz"
  ]
  extensions := [
    ("_abc", ["_abc.c"]),
    ("_asyncio", ["_asynciomodule.c"]),
    ("_bisect", ["_bisectmodule.c"]),
    ("_blake2", ["_blake2/blake2module.c", "_blake2/blake2b_impl.c", "_blake2/blake2s_impl.c"]),
    ("_bz2", ["_bz2module.c", "-I$(BZIP2)/include", "-L$(BZIP2)/lib", "$(BZIP2)/lib/libbz2.a"]),
    ("_codecs", ["_codecsmodule.c"]),
    ("_codecs_cn", ["cjkcodecs/_codecs_cn.c"]),
    ("_codecs_hk", ["cjkcodecs/_codecs_hk.c"]),
    ("_codecs_iso2022", ["cjkcodecs/_codecs_iso2022.c"]),
    ("_codecs_jp", ["cjkcodecs/_codecs_jp.c"]),
    ("_codecs_kr", ["cjkcodecs/_codecs_kr.c"]),
    ("_codecs_tw", ["cjkcodecs/_codecs_tw.c"]),
    ("_collections", ["_collectionsmodule.c"]),
    ("_contextvars", ["_contextvarsmodule.c"]),
    ("_crypt", ["_cryptmodule.c", "-lcrypt"]),
    ("_csv", ["_csv.c"]),
    ("_ctypes", ["_ctypes/_ctypes.c", "_ctypes/callbacks.c", "_ctypes/callproc.c", "_ctypes/stgdict.c", "_ctypes/cfield.c", "-ldl", "-lffi", "-DHAVE_FFI_PREP_CIF_VAR", "-DHAVE_FFI_PREP_CLOSURE_LOC", "-DHAVE_FFI_CLOSURE_ALLOC"]),
    ("_curses", ["-lncurses", "-lncursesw", "-ltermcap", "_cursesmodule.c"]),
    ("_curses_panel", ["-lpanel", "-lncurses", "_curses_panel.c"]),
    ("_datetime", ["_datetimemodule.c"]),
    ("_dbm", ["_dbmmodule.c", "-lgdbm_compat", "-DUSE_GDBM_COMPAT"]),
    ("_decimal", ["_decimal/_decimal.c", "-DCONFIG_64=1"]),
    ("_elementtree", ["_elementtree.c"]),
    ("_functools", ["-DPy_BUILD_CORE_BUILTIN", "-I$(srcdir)/Include/internal", "_functoolsmodule.c"]),
    ("_gdbm", ["_gdbmmodule.c", "-lgdbm"]),
    ("_hashlib", ["_hashopenssl.c", "-I$(OPENSSL)/include", "-L$(OPENSSL)/lib", "$(OPENSSL)/lib/libcrypto.a"]),
    ("_heapq", ["_heapqmodule.c"]),
    ("_io", ["_io/_iomodule.c", "_io/iobase.c", "_io/fileio.c", "_io/bytesio.c", "_io/bufferedio.c", "_io/textio.c", "_io/stringio.c"]),
    ("_json", ["_json.c"]),
    ("_locale", ["-DPy_BUILD_CORE_BUILTIN", "_localemodule.c"]),
    ("_lsprof", ["_lsprof.c", "rotatingtree.c"]),
    ("_lzma", ["_lzmamodule.c", "-I$(LZMA)/include", "-L$(LZMA)/lib", "$(LZMA)/lib/liblzma.a"]),
    ("_md5", ["md5module.c"]),
    ("_multibytecodec", ["cjkcodecs/multibytecodec.c"]),
    ("_multiprocessing", ["_multiprocessing/multiprocessing.c", "_multiprocessing/semaphore.c"]),
    ("_opcode", ["_opcode.c"]),
    ("_operator", ["_operator.c"]),
    ("_pickle", ["_pickle.c"]),
    ("_posixshmem", ["_multiprocessing/posixshmem.c"]),
    ("_posixsubprocess", ["_posixsubprocess.c"]),
    ("_queue", ["_queuemodule.c"]),
    ("_random", ["_randommodule.c"]),
    ("_scproxy", ["_scproxy.c"]),
    ("_sha1", ["sha1module.c"]),
    ("_sha256", ["sha256module.c"]),
    ("_sha3", ["_sha3/sha3module.c"]),
    ("_sha512", ["sha512module.c"]),
    ("_signal", ["-DPy_BUILD_CORE_BUILTIN", "-I$(srcdir)/Include/internal", "signalmodule.c"]),
    ("_socket", ["socketmodule.c"]),
    ("_sqlite3", ["_sqlite/blob.c", "_sqlite/connection.c", "_sqlite/cursor.c", "_sqlite/microprotocols.c", "_sqlite/module.c", "_sqlite/prepare_protocol.c", "_sqlite/row.c", "_sqlite/statement.c", "_sqlite/util.c"]),
    ("_sre", ["_sre/sre.c", "-DPy_BUILD_CORE_BUILTIN"]),
    ("_ssl", ["_ssl.c", "-I$(OPENSSL)/include", "-L$(OPENSSL)/lib", "$(OPENSSL)/lib/libcrypto.a", "$(OPENSSL)/lib/libssl.a"]),
    ("_stat", ["_stat.c"]),
    ("_statistics", ["_statisticsmodule.c"]),
    ("_struct", ["_struct.c"]),
    ("_symtable", ["symtablemodule.c"]),
    ("_thread", ["-DPy_BUILD_CORE_BUILTIN", "-I$(srcdir)/Include/internal", "_threadmodule.c"]),
    ("_tracemalloc", ["_tracemalloc.c"]),
    ("_typing", ["_typingmodule.c"]),
    ("_uuid", ["_uuidmodule.c"]),
    ("_weakref", ["_weakref.c"]),
    ("_zoneinfo", ["_zoneinfo.c"]),
    ("array", ["arraymodule.c"]),
    ("atexit", ["atexitmodule.c"]),
    ("binascii", ["binascii.c"]),
    ("cmath", ["cmathmodule.c"]),
    ("errno", ["errnomodule.c"]),
    ("faulthandler", ["faulthandler.c"]),
    ("fcntl", ["fcntlmodule.c"]),
    ("grp", ["grpmodule.c"]),
    ("itertools", ["itertoolsmodule.c"]),
    ("math", ["mathmodule.c"]),
    ("mmap", ["mmapmodule.c"]),
    ("ossaudiodev", ["ossaudiodev.c"]),
    ("posix", ["-DPy_BUILD_CORE_BUILTIN", "-I$(srcdir)/Include/internal", "posixmodule.c"]),
    ("pwd", ["pwdmodule.c"]),
    ("pyexpat", ["expat/xmlparse.c", "expat/xmlrole.c", "expat/xmltok.c", "pyexpat.c", "-I$(srcdir)/Modules/expat", "-DHAVE_EXPAT_CONFIG_H", "-DUSE_PYEXPAT_CAPI", "-DXML_DEV_URANDOM"]),
    ("readline", ["readline.c", "-lreadline", "-ltermcap"]),
    ("resource", ["resource.c"]),
    ("select", ["selectmodule.c"]),
    ("spwd", ["spwdmodule.c"]),
    ("syslog", ["syslogmodule.c"]),
    ("termios", ["termios.c"]),
    ("time", ["-DPy_BUILD_CORE_BUILTIN", "-I$(srcdir)/Include/internal", "timemodule.c"]),
    ("unicodedata", ["unicodedata.c"]),
    ("zlib", ["zlibmodule.c", "-lz"])
  ]
  core := ["_abc", "_codecs", "_collections", "_functools", "_io", "_locale", "_operator", "_signal", "_sre", "_stat", "_symtable", "_thread", "_tracemalloc", "_weakref", "atexit", "errno", "faulthandler", "itertools", "posix", "pwd", "time"]
  shared := []
  static := ["_asyncio", "_bisect", "_blake2", "_bz2", "_contextvars", "_csv", "_datetime", "_decimal", "_elementtree", "_hashlib", "_heapq", "_json", "_lsprof", "_lzma", "_md5", "_multibytecodec", "_multiprocessing", "_opcode", "_pickle", "_posixshmem", "_posixsubprocess", "_queue", "_random", "_sha1", "_sha256", "_sha3", "_sha512", "_socket", "_sqlite3", "_ssl", "_statistics", "_struct", "_typing", "_uuid", "_zoneinfo", "array", "binascii", "cmath", "fcntl", "grp", "math", "mmap", "pyexpat", "readline", "select", "unicodedata", "zlib"]
  disabled := ["_codecs_cn", "_codecs_hk", "_codecs_iso2022", "_codecs_jp", "_codecs_kr", "_codecs_tw", "_crypt", "_ctypes", "_curses", "_curses_panel", "_dbm", "_scproxy", "_tkinter", "_xxsubinterpreters", "audioop", "nis", "ossaudiodev", "resource", "spwd", "syslog", "termios", "xxlimited", "xxlimited_35"]


/-- `PythonBuilder.STDLIB_MODULES`, transcribed verbatim in source order (a
Python set literal, modelled as the list of its elements). -/
def STDLIB_MODULES : List String := [
  "abc",
  "aifc",
  "argparse",
  "array",
  "ast",
  "asyncio",
  "atexit",
  "base64",
  "bdb",
  "binascii",
  "bisect",
  "builtins",
  "bz2",
  "calendar",
  "cgi",
  "cgitb",
  "chunk",
  "cmath",
  "cmd",
  "code",
  "codecs",
  "codeop",
  "collections",
  "colorsys",
  "compileall",
  "concurrent",
  "configparser",
  "contextlib",
  "contextvars",
  "copy",
  "copyreg",
  "cProfile",
  "crypt",
  "csv",
  "ctypes",
  "curses",
  "dataclasses",
  "datetime",
  "dbm",
  "decimal",
  "difflib",
  "dis",
  "doctest",
  "email",
  "encodings",
  "enum",
  "errno",
  "faulthandler",
  "fcntl",
  "filecmp",
  "fileinput",
  "fnmatch",
  "fractions",
  "ftplib",
  "functools",
  "gc",
  "getopt",
  "getpass",
  "gettext",
  "glob",
  "graphlib",
  "grp",
  "gzip",
  "hashlib",
  "heapq",
  "hmac",
  "html",
  "http",
  "idlelib",
  "imaplib",
  "imghdr",
  "importlib",
  "inspect",
  "io",
  "ipaddress",
  "itertools",
  "json",
  "keyword",
  "lib2to3",
  "linecache",
  "locale",
  "logging",
  "lzma",
  "mailbox",
  "mailcap",
  "marshal",
  "math",
  "mimetypes",
  "mmap",
  "modulefinder",
  "multiprocessing",
  "netrc",
  "nis",
  "nntplib",
  "numbers",
  "operator",
  "optparse",
  "os",
  "ossaudiodev",
  "pathlib",
  "pdb",
  "pickle",
  "pickletools",
  "pipes",
  "pkgutil",
  "platform",
  "plistlib",
  "poplib",
  "posix",
  "posixpath",
  "pprint",
  "profile",
  "pstats",
  "pty",
  "pwd",
  "py_compile",
  "pyclbr",
  "pydoc",
  "queue",
  "quopri",
  "random",
  "re",
  "readline",
  "reprlib",
  "resource",
  "rlcompleter",
  "runpy",
  "sched",
  "secrets",
  "select",
  "selectors",
  "shelve",
  "shlex",
  "shutil",
  "signal",
  "site",
  "smtpd",
  "smtplib",
  "sndhdr",
  "socket",
  "socketserver",
  "spwd",
  "sqlite3",
  "ssl",
  "stat",
  "statistics",
  "string",
  "stringprep",
  "struct",
  "subprocess",
  "sunau",
  "symtable",
  "sys",
  "sysconfig",
  "syslog",
  "tabnanny",
  "tarfile",
  "telnetlib",
  "tempfile",
  "termios",
  "test",
  "textwrap",
  "threading",
  "time",
  "timeit",
  "tkinter",
  "token",
  "tokenize",
  "tomllib",
  "trace",
  "traceback",
  "tracemalloc",
  "tty",
  "turtle",
  "turtledemo",
  "types",
  "typing",
  "unicodedata",
  "unittest",
  "urllib",
  "uu",
  "uuid",
  "venv",
  "warnings",
  "wave",
  "weakref",
  "webbrowser",
  "winreg",
  "winsound",
  "wsgiref",
  "xdrlib",
  "xml",
  "xmlrpc",
  "zipapp",
  "zipfile",
  "zipimport",
  "zlib",
  "zoneinfo",
  "_abc",
  "_asyncio",
  "_bisect",
  "_blake2",
  "_bz2",
  "_codecs",
  "_collections",
  "_contextvars",
  "_csv",
  "_ctypes",
  "_datetime",
  "_decimal",
  "_elementtree",
  "_functools",
  "_hashlib",
  "_heapq",
  "_io",
  "_json",
  "_locale",
  "_lsprof",
  "_lzma",
  "_md5",
  "_multibytecodec",
  "_multiprocessing",
  "_opcode",
  "_operator",
  "_pickle",
  "_posixshmem",
  "_posixsubprocess",
  "_queue",
  "_random",
  "_sha1",
  "_sha256",
  "_sha512",
  "_sha3",
  "_signal",
  "_socket",
  "_sqlite3",
  "_sre",
  "_ssl",
  "_stat",
  "_statistics",
  "_struct",
  "_symtable",
  "_thread",
  "_tracemalloc",
  "_typing",
  "_uuid",
  "_weakref",
  "_zoneinfo"
]

/-- `PythonBuilder.STDLIB_TO_EXTENSION`, transcribed verbatim. -/
def STDLIB_TO_EXTENSION : List (String × List String) := [
  ("hashlib", ["_hashlib", "_md5", "_sha1", "_sha256", "_sha512", "_sha3", "_blake2"]),
  ("ssl", ["_ssl"]),
  ("sqlite3", ["_sqlite3"]),
  ("json", ["_json"]),
  ("pickle", ["_pickle"]),
  ("datetime", ["_datetime"]),
  ("decimal", ["_decimal"]),
  ("ctypes", ["_ctypes"]),
  ("lzma", ["_lzma"]),
  ("bz2", ["_bz2"]),
  ("zlib", ["zlib"]),
  ("xml", ["_elementtree", "pyexpat"]),
  ("csv", ["_csv"]),
  ("asyncio", ["_asyncio"]),
  ("multiprocessing", ["_multiprocessing", "_posixshmem"]),
  ("collections", ["_collections"]),
  ("functools", ["_functools"]),
  ("itertools", ["itertools"]),
  ("math", ["math", "cmath"]),
  ("struct", ["_struct"]),
  ("array", ["array"]),
  ("select", ["select"]),
  ("socket", ["_socket"]),
  ("unicodedata", ["unicodedata"]),
  ("binascii", ["binascii"]),
  ("mmap", ["mmap"]),
  ("fcntl", ["fcntl"]),
  ("grp", ["grp"]),
  ("pwd", ["pwd"]),
  ("readline", ["readline"]),
  ("uuid", ["_uuid"]),
  ("statistics", ["_statistics"]),
  ("typing", ["_typing"]),
  ("inspect", ["_opcode"]),
  ("dis", ["_opcode"]),
  ("subprocess", ["_posixsubprocess", "select", "fcntl"]),
  ("random", ["_random"]),
  ("heapq", ["_heapq"]),
  ("bisect", ["_bisect"]),
  ("contextvars", ["_contextvars"]),
  ("zoneinfo", ["_zoneinfo"])
]


/-- `Config.move_entries` for a single name: `self.cfg[src].remove(name)`
followed by `self.cfg[dst].append(name)`. -/
def moveOne (c : Cfg) (src dst : Bucket) (name : String) : Except Err Cfg := do
  let srcList ← listRemove (c.get src) name
  let c := c.set src srcList
  pure (c.set dst (c.get dst ++ [name]))

/-- `Config.move_entries(src, dst, *names)`: the loop over `names`. -/
def move_entries (c : Cfg) (src dst : Bucket) (names : List String) : Except Err Cfg :=
  names.foldlM (fun c n => moveOne c src dst n) c

/-- `Config.enable_static`: move disabled entries to static. -/
def enable_static (c : Cfg) (names : List String) : Except Err Cfg :=
  move_entries c .disabled .static names

/-- `Config.enable_shared`: move disabled entries to shared. -/
def enable_shared (c : Cfg) (names : List String) : Except Err Cfg :=
  move_entries c .disabled .shared names

/-- `Config.disable_static`: move static entries to disabled. -/
def disable_static (c : Cfg) (names : List String) : Except Err Cfg :=
  move_entries c .static .disabled names

/-- `Config.disable_shared`: move shared entries to disabled. -/
def disable_shared (c : Cfg) (names : List String) : Except Err Cfg :=
  move_entries c .shared .disabled names

/-- `Config.move_static_to_shared`. -/
def move_static_to_shared (c : Cfg) (names : List String) : Except Err Cfg :=
  move_entries c .static .shared names

/-- `Config.move_shared_to_static`. -/
def move_shared_to_static (c : Cfg) (names : List String) : Except Err Cfg :=
  move_entries c .shared .static names

/-- The `platform.system()` value the script branches on (`PLATFORM`). -/
inductive Platform where
  | darwin
  | linux
  | windows
  | other
deriving DecidableEq, Repr

/-- `PythonConfig311.patch`: the version-3.11 edit sequence. -/
def patch311edits (p : Platform) (c : Cfg) : Except Err Cfg :=
  match p with
  | .darwin => enable_static c ["_scproxy"]
  | .linux => enable_static c ["ossaudiodev"]
  | _ => .ok c

/-- The version-3.12 edit sequence (the body of `PythonConfig312.patch`
after the `super().patch()` call). -/
def patch312edits (c : Cfg) : Except Err Cfg := do
  let exts := dictUpdate c.extensions [
    ("_md5", ["md5module.c", "-I$(srcdir)/Modules/_hacl/include",
      "_hacl/Hacl_Hash_MD5.c", "-D_BSD_SOURCE", "-D_DEFAULT_SOURCE"]),
    ("_sha1", ["sha1module.c", "-I$(srcdir)/Modules/_hacl/include",
      "_hacl/Hacl_Hash_SHA1.c", "-D_BSD_SOURCE", "-D_DEFAULT_SOURCE"]),
    ("_sha2", ["sha2module.c", "-I$(srcdir)/Modules/_hacl/include",
      "_hacl/Hacl_Hash_SHA2.c", "-D_BSD_SOURCE", "-D_DEFAULT_SOURCE"]),
    ("_sha3", ["sha3module.c", "-I$(srcdir)/Modules/_hacl/include",
      "_hacl/Hacl_Hash_SHA3.c", "-D_BSD_SOURCE", "-D_DEFAULT_SOURCE"])]
  let exts ← dictDel exts "_sha256"
  let exts ← dictDel exts "_sha512"
  let c := { c with extensions := exts, static := c.static ++ ["_sha2"] }
  let st ← listRemove c.static "_sha256"
  let st ← listRemove st "_sha512"
  pure { c with static := st, disabled := c.disabled ++ ["_xxinterpchannels"] }

/-- The version-3.13 edit sequence (the body of `PythonConfig313.patch`
after the `super().patch()` call). -/
def patch313edits (c : Cfg) : Except Err Cfg := do
  let exts := dictUpdate c.extensions [
    ("_interpchannels", ["_interpchannelsmodule.c"]),
    ("_interpqueues", ["_interpqueuesmodule.c"]),
    ("_interpreters", ["_interpretersmodule.c"]),
    ("_sysconfig", ["_sysconfig.c"]),
    ("_testexternalinspection", ["_testexternalinspection.c"])]
  let exts ← dictDel exts "_crypt"
  let exts ← dictDel exts "ossaudiodev"
  let exts ← dictDel exts "spwd"
  let c := { c with extensions := exts }
  let c := { c with static := c.static ++ ["_interpchannels", "_interpqueues", "_interpreters", "_sysconfig"] }
  let dis ← listRemove c.disabled "_crypt"
  let dis ← listRemove dis "_xxsubinterpreters"
  let dis ← listRemove dis "audioop"
  let dis ← listRemove dis "nis"
  let dis ← listRemove dis "ossaudiodev"
  let dis ← listRemove dis "spwd"
  pure { c with disabled := dis ++ ["_testexternalinspection"] }

/-- The version-3.14 edit sequence (the body of `PythonConfig314.patch`
after the `super().patch()` call). -/
def patch314edits (c : Cfg) : Except Err Cfg := do
  let exts := dictUpdate c.extensions [
    ("_types", ["_typesmodule.c"]),
    ("_hmac", ["hmacmodule.c"]),
    ("_remote_debugging", ["_remote_debugging_module.c"]),
    ("_zstd", ["_zstd/_zstdmodule.c", "-lzstd", "-I$(srcdir)/Modules/_zstd"])]
  let exts := dictSet exts "_blake2" ["blake2module.c"]
  let exts := dictSet exts "_md5" ["md5module.c"]
  let exts := dictSet exts "_sha1" ["sha1module.c"]
  let exts := dictSet exts "_sha2" ["sha2module.c"]
  let exts := dictSet exts "_sha3" ["sha3module.c"]
  let exts ← if dictHas exts "_contextvars" then dictDel exts "_contextvars" else pure exts
  let st := if "_contextvars" ∈ c.static then c.static.erase "_contextvars" else c.static
  let exts ← if dictHas exts "_testexternalinspection" then
      dictDel exts "_testexternalinspection" else pure exts
  let dis := if "_testexternalinspection" ∈ c.disabled then
      c.disabled.erase "_testexternalinspection" else c.disabled
  let st := st ++ ["_types", "_hmac"]
  let dis := dis ++ ["_remote_debugging", "_zstd"]
  let st ← listRemove st "_sha1"
  let st ← listRemove st "_sha2"
  let st ← listRemove st "_sha3"
  let st ← listRemove st "_hmac"
  pure { c with extensions := exts, static := st, disabled := dis }

/-- `PythonConfig312.patch`: `super().patch()` (the 3.11 patch) then the
3.12 edits. -/
def patch312 (p : Platform) (c : Cfg) : Except Err Cfg := do
  patch312edits (← patch311edits p c)

/-- `PythonConfig313.patch`: `super().patch()` (the 3.12 patch) then the
3.13 edits. -/
def patch313 (p : Platform) (c : Cfg) : Except Err Cfg := do
  patch313edits (← patch312 p c)

/-- `PythonConfig314.patch`: `super().patch()` (the 3.13 patch) then the
3.14 edits. -/
def patch314 (p : Platform) (c : Cfg) : Except Err Cfg := do
  patch314edits (← patch313 p c)

/-- `Config.__init__` for `PythonConfig311`: deep-copy the given table (pure
value passing in this embedding) and run `self.patch()`. -/
def mkPythonConfig311 (p : Platform) (cfg : Cfg) : Except Err Cfg :=
  patch311edits p cfg

/-- `Config.__init__` for `PythonConfig312`. -/
def mkPythonConfig312 (p : Platform) (cfg : Cfg) : Except Err Cfg :=
  patch312 p cfg

/-- `Config.__init__` for `PythonConfig313`. -/
def mkPythonConfig313 (p : Platform) (cfg : Cfg) : Except Err Cfg :=
  patch313 p cfg

/-- `Config.__init__` for `PythonConfig314`. -/
def mkPythonConfig314 (p : Platform) (cfg : Cfg) : Except Err Cfg :=
  patch314 p cfg

/-- `PythonConfig.static_max`: no edits. -/
def static_max (_p : Platform) (c : Cfg) : Except Err Cfg := .ok c

/-- `PythonConfig.static_mid`: disable `_decimal`; on Linux also rewrite the
`_ssl` and `_hashlib` build rules. -/
def static_mid (p : Platform) (c : Cfg) : Except Err Cfg := do
  let c ← disable_static c ["_decimal"]
  if p = .linux then
    let exts := dictSet c.extensions "_ssl" ["_ssl.c", "-I$(OPENSSL)/include",
      "-L$(OPENSSL)/lib", "-l:libssl.a -Wl,--exclude-libs,libssl.a",
      "-l:libcrypto.a -Wl,--exclude-libs,libcrypto.a"]
    let exts := dictSet exts "_hashlib" ["_hashopenssl.c", "-I$(OPENSSL)/include",
      "-L$(OPENSSL)/lib", "-l:libcrypto.a -Wl,--exclude-libs,libcrypto.a"]
    pure { c with extensions := exts }
  else
    pure c

/-- `PythonConfig.static_tiny`. -/
def static_tiny (_p : Platform) (c : Cfg) : Except Err Cfg :=
  disable_static c ["_bz2", "_decimal", "_csv", "_json", "_lzma", "_scproxy",
    "_sqlite3", "_ssl", "pyexpat"]

/-- `PythonConfig.static_bootstrap`: append every static entry to disabled,
set static to a copy of core, and empty core. -/
def static_bootstrap (_p : Platform) (c : Cfg) : Except Err Cfg :=
  .ok { c with disabled := c.disabled ++ c.static, static := c.core, core := [] }

/-- `PythonConfig.shared_max`: remove `_ctypes` from disabled and move
`_decimal`, `_ssl`, `_hashlib` from static to shared. -/
def shared_max (_p : Platform) (c : Cfg) : Except Err Cfg := do
  let dis ← listRemove c.disabled "_ctypes"
  move_static_to_shared { c with disabled := dis } ["_decimal", "_ssl", "_hashlib"]

/-- `PythonConfig.shared_mid`. -/
def shared_mid (_p : Platform) (c : Cfg) : Except Err Cfg :=
  disable_static c ["_decimal", "_ssl", "_hashlib"]

/-- The `must_stay_static` set of `PythonConfig.shared_vanilla`. -/
def mustStayStatic : List String :=
  ["_functools", "_locale", "_signal", "_sre", "_thread", "posix", "time", "_typing"]

/-- `PythonConfig.shared_vanilla`: drop buildable modules from disabled
(guarded, so no error), then move every static module not in
`must_stay_static` to shared. -/
def shared_vanilla (_p : Platform) (c : Cfg) : Except Err Cfg := do
  let dis := ["_ctypes", "_curses", "_curses_panel", "_dbm", "_scproxy",
    "_tkinter", "resource", "syslog", "termios"].foldl
    (fun dis m => if m ∈ dis then dis.erase m else dis) c.disabled
  let c := { c with disabled := dis }
  c.static.foldlM
    (fun c m => if m ∈ mustStayStatic then pure c else move_static_to_shared c [m]) c

/-- `PythonConfig.framework_max`: `shared_max` then move further modules
from static to shared. -/
def framework_max (p : Platform) (c : Cfg) : Except Err Cfg := do
  let c ← shared_max p c
  move_static_to_shared c ["_bz2", "_lzma", "_sqlite3", "_scproxy", "zlib", "binascii"]

/-- `PythonConfig.framework_mid`: `framework_max` then disable the shared
`_decimal`, `_ssl`, `_hashlib`. -/
def framework_mid (p : Platform) (c : Cfg) : Except Err Cfg := do
  let c ← framework_max p c
  disable_shared c ["_decimal", "_ssl", "_hashlib"]

/-- The nine build-variant methods of `PythonConfig`. -/
def buildVariants : List (Platform → Cfg → Except Err Cfg) :=
  [static_max, static_mid, static_tiny, static_bootstrap,
   shared_max, shared_mid, shared_vanilla, framework_max, framework_mid]

/-- The four version constructors. -/
def versionConstructors : List (Platform → Cfg → Except Err Cfg) :=
  [mkPythonConfig311, mkPythonConfig312, mkPythonConfig313, mkPythonConfig314]

/-- Every name of the core, static and shared buckets is a key of the
extensions table: the precondition `Config.write` needs. -/
def allBucketNamesHaveRules (c : Cfg) : Bool :=
  (c.core ++ c.static ++ c.shared).all (fun n => dictHas c.extensions n)

/-- Construct a version's configuration on platform `p`, apply one variant
method, and check `allBucketNamesHaveRules` on the result (vacuously true
when construction or the variant raises). -/
def variantKeysOk (p : Platform) (mk variant : Platform → Cfg → Except Err Cfg) :
    Bool :=
  match (mk p BASE_CONFIG).bind (variant p) with
  | .ok c => allBucketNamesHaveRules c
  | .error _ => true

/-- Python `sorted` on a list of strings (lexicographic by code points). -/
def pySorted (l : List String) : List String :=
  l.mergeSort (fun a b => a ≤ b)

/-- The section-heading name used by `Config.write` for a bucket. -/
def bucketName : Bucket → String
  | .core => "core"
  | .shared => "shared"
  | .static => "static"
  | .disabled => "disabled"

/-- The `self.out` lines set up by `Config.__init__`:
`["# -*- makefile -*-"] + cfg["header"] + ["\n# core\n"]`. -/
def initOut (c : Cfg) : List String :=
  ["# -*- makefile -*-"] ++ c.header ++ ["\n# core\n"]

/-- One output line of `Config.write`: the entry name joined with its
build-rule strings; `KeyError` when the name has no extensions entry. -/
def extLine (c : Cfg) (i : String) : Except Err String :=
  match dictGet c.extensions i with
  | some ext => .ok (String.intercalate " " (i :: ext))
  | none => .error (.keyError i)

/-- `_add_section` inside `Config.write`: nothing when the bucket is empty,
otherwise a heading line followed by the sorted entries (bare names for the
disabled bucket, name plus rules otherwise). -/
def sectionLines (c : Cfg) (b : Bucket) : Except Err (List String) :=
  if c.get b = [] then .ok []
  else do
    let rows ← (pySorted (c.get b)).mapM
      (fun i => if b = .disabled then .ok i else extLine c i)
    .ok (("\n*" ++ bucketName b ++ "*\n") :: rows)

/-- `Config.write(method, to)`: apply the variant method, then emit the
header, the core entries in table order, and the shared/static/disabled
sections; the file receives these lines joined by newlines plus the
final `"# end \n"` line. -/
def Config.write (variant : Cfg → Except Err Cfg) (c0 : Cfg) :
    Except Err (List String) := do
  let out := initOut c0
  let c ← variant c0
  let cl ← c.core.mapM (extLine c)
  let sh ← sectionLines c .shared
  let st ← sectionLines c .static
  let di ← sectionLines c .disabled
  pure (out ++ cl ++ sh ++ st ++ di ++ ["# end \n"])

/-- A JSON value, the codomain of `json.dump`. -/
inductive Json where
  | str (s : String)
  | arr (xs : List Json)
  | obj (fields : List (String × Json))

/-- Encode a list of strings as a JSON array. -/
def strArr (l : List String) : Json := .arr (l.map .str)

/-- The JSON document `json.dump(self.cfg, f)` serializes: the whole cfg
dict with all six keys. -/
def cfgToJson (c : Cfg) : Json :=
  .obj [("header", strArr c.header),
        ("extensions", .obj (c.extensions.map (fun p => (p.1, strArr p.2)))),
        ("core", strArr c.core),
        ("shared", strArr c.shared),
        ("static", strArr c.static),
        ("disabled", strArr c.disabled)]

/-- `Config.write_json(method, to)`: apply the variant method, then
serialize the whole cfg dict as JSON. -/
def Config.write_json (variant : Cfg → Except Err Cfg) (c0 : Cfg) :
    Except Err Json := do
  let c ← variant c0
  pure (cfgToJson c)

/-- Spec-side description of one `Config.write` entry line (claim C3's
words): the entry followed by its build-rule strings from the table. -/
def specEntryLine (c : Cfg) (i : String) : String :=
  String.intercalate " " (i :: (dictGet c.extensions i).getD [])

/-- Spec-side description of a section (claim C3's words): omitted when the
bucket is empty, otherwise a heading and the alphabetically sorted entries,
bare names for disabled, name plus rules for shared/static. -/
def specSection (c : Cfg) (b : Bucket) : List String :=
  if c.get b = [] then []
  else ("\n*" ++ bucketName b ++ "*\n") ::
    (pySorted (c.get b)).map (fun i => if b = .disabled then i else specEntryLine c i)

/-- Spec-side description of the whole `Config.write` output, following the
claim: header lines, core entries in table order, then the shared, static
and disabled sections in that order. -/
def writeSpecLines (c0 c : Cfg) : List String :=
  initOut c0 ++ c.core.map (specEntryLine c) ++
  specSection c .shared ++ specSection c .static ++ specSection c .disabled ++
  ["# end \n"]

/-- `subprocess.CalledProcessError`: carries the nonzero exit status. -/
structure CalledProcessError where
  returncode : Int
deriving DecidableEq, Repr

/-- A command passed to `ShellCmd.cmd`: Python `str` or `list[str]`. -/
inductive CmdArg where
  | str (s : String)
  | list (args : List String)
deriving DecidableEq, Repr

/-- The `CommandError` raised by `ShellCmd.cmd`, chained
(`raise ... from e`) from the underlying `CalledProcessError`. -/
structure CommandError where
  failedCmd : CmdArg
  cause : CalledProcessError
deriving DecidableEq, Repr

/-- Python substring test `sub in s`. -/
def strContains (s sub : String) : Bool :=
  (s.splitOn sub).length ≥ 2

/-- The shell-metacharacter test in `ShellCmd.cmd` deciding between
`shell=True` and `shlex.split`. -/
def needsShell (s : String) : Bool :=
  ["|", ">", "<", "&", ";", "&&", "||"].any (fun ch => strContains s ch)

/-- `subprocess.check_call`, abstracted over the spawned process's exit
status: raises `CalledProcessError` exactly when the status is nonzero. -/
def check_call (exitStatus : Int) : Except CalledProcessError Unit :=
  if exitStatus = 0 then .ok () else .error ⟨exitStatus⟩

/-- `ShellCmd.cmd`: dispatch on the command form (shell string with
metacharacters, plain string split by `shlex.split`, or argument list),
spawn once via `check_call`, and re-raise a failure as `CommandError`
chained from the `CalledProcessError`; there is no retry. -/
def ShellCmd.cmd (shellcmd : CmdArg) (exitStatus : Int) : Except CommandError Unit :=
  let spawned : Except CalledProcessError Unit :=
    match shellcmd with
    | .str s => if needsShell s then check_call exitStatus else check_call exitStatus
    | .list _ => check_call exitStatus
  match spawned with
  | .ok () => .ok ()
  | .error e => .error ⟨shellcmd, e⟩

/-- `PythonBuilder.CORE_MODULES`, transcribed verbatim in source order. -/
def CORE_MODULES : List String := [
  "_abc",
  "_io",
  "_sre",
  "_codecs",
  "_collections",
  "_functools",
  "_locale",
  "_operator",
  "_signal",
  "_stat",
  "_symtable",
  "_thread",
  "_tracemalloc",
  "_weakref",
  "atexit",
  "errno",
  "faulthandler",
  "itertools",
  "posix",
  "pwd",
  "time",
  "zlib"
]

/-- `STDLIB_MODULES` as the finite set the Python set literal denotes. -/
def STDLIB_SET : Finset String := STDLIB_MODULES.toFinset

/-- `CORE_MODULES` as a finite set. -/
def CORE_MODULES_SET : Finset String := CORE_MODULES.toFinset

/-- The `AnalysisResult` dataclass. -/
structure AnalysisResult where
  stdlib_imports : Finset String
  third_party : Finset String
  required_extensions : Finset String
  needed_but_disabled : Finset String
  potentially_unused : Finset String
  files_analyzed : Nat
deriving DecidableEq

/-- Lookup in the `STDLIB_TO_EXTENSION` table. -/
def stdlibToExtension (m : String) : Option (List String) :=
  (STDLIB_TO_EXTENSION.find? (fun p => p.1 == m)).map (·.2)

/-- One iteration of the required-extensions loop in
`_analyze_package_deps`: add the table entry when the module is a key, and
add the module itself when its name starts with an underscore. -/
def requiredExtStep (acc : Finset String) (m : String) : Finset String :=
  let acc := match stdlibToExtension m with
    | some exts => acc ∪ exts.toFinset
    | none => acc
  if m.startsWith "_" then insert m acc else acc

/-- The loop `for mod in stdlib_imports: ...` of `_analyze_package_deps`,
over an enumeration of the set (the result is enumeration-order
independent). -/
def requiredExtLoop (mods : List String) : Finset String :=
  mods.foldl requiredExtStep ∅

/-- `PythonBuilder._analyze_package_deps`, beginning at the point where the
imports of all analyzed files have been gathered into `all_imports` (given
here as a list enumerating that set) and the variant method has been
applied to the configuration `cfg`; `stdlib_imports` is iterated as the
matching sublist of that enumeration (the folded result is
enumeration-order independent). -/
def analyzePackageDeps (allImports : List String) (cfg : Cfg)
    (filesAnalyzed : Nat) : AnalysisResult :=
  let stdlib_imports := allImports.toFinset ∩ STDLIB_SET
  let third_party := allImports.toFinset \ STDLIB_SET
  let required := requiredExtLoop (allImports.filter (fun m => m ∈ STDLIB_MODULES))
  let current_static := cfg.static.toFinset
  let current_shared := cfg.shared.toFinset
  let current_disabled := cfg.disabled.toFinset
  let current_enabled := current_static ∪ current_shared ∪ cfg.core.toFinset
  let potentially_unused := (current_enabled \ required) \ CORE_MODULES_SET
  let needed_but_disabled := required ∩ current_disabled
  ⟨stdlib_imports, third_party, required, needed_but_disabled,
   potentially_unused, filesAnalyzed⟩

/-- Spec-side formula for `required_extensions` (claim C2's words): the
union of the table entries over the stdlib imports that are keys, together
with the stdlib imports whose name starts with an underscore. -/
def requiredExtensionsSpec (stdlib : Finset String) : Finset String :=
  ((stdlib.filter (fun m => (stdlibToExtension m).isSome)).biUnion
    (fun m => ((stdlibToExtension m).getD []).toFinset)) ∪
  stdlib.filter (fun m => m.startsWith "_")

/-- The loop of `PythonBuilder.auto_configure` that builds
`extensions_to_remove`, skipping core modules via `continue`. -/
def autoConfigureExtensionsToRemove (pu : List String) : List String :=
  pu.foldl (fun acc m => if m ∈ CORE_MODULES then acc else acc ++ [m]) []

/-- The loop of `PythonBuilder.auto_reduce` that builds
`extensions_to_remove` (`if mod not in self.CORE_MODULES`). -/
def autoReduceExtensionsToRemove (pu : List String) : List String :=
  pu.foldl (fun acc m => if m ∉ CORE_MODULES then acc ++ [m] else acc) []

/-- The `reductions.extensions_to_remove` field of the manifest written by
`auto_configure`: the loop result, sorted (`puEnum` enumerates the
`potentially_unused` set of the analysis result). -/
def autoConfigureManifestExtensions (puEnum : List String) : List String :=
  pySorted (autoConfigureExtensionsToRemove puEnum)

/-- The `reductions.extensions_to_remove` field of the in-memory manifest
built by `auto_reduce`: the loop result, sorted (`puEnum` enumerates the
`potentially_unused` set of the analysis result). -/
def autoReduceManifestExtensions (puEnum : List String) : List String :=
  pySorted (autoReduceExtensionsToRemove puEnum)

/-- fnmatch-style matching for the glob patterns in a reduction manifest
(literal characters plus the wildcards `*` and `?`, the only pattern forms
`auto_configure` emits). Pattern first, then the file name; a `*` consumes
any prefix of the name, expressed as a try over all of its suffixes. -/
def globMatchChars : List Char → List Char → Bool
  | [], cs => cs.isEmpty
  | '*' :: ps, cs => cs.tails.any (fun suffix => globMatchChars ps suffix)
  | '?' :: ps, cs =>
    match cs with
    | [] => false
    | _ :: cs => globMatchChars ps cs
  | p :: ps, cs =>
    match cs with
    | [] => false
    | c :: cs => p == c && globMatchChars ps cs

/-- `Path.glob` match of a file name against a pattern. -/
def globMatch (name pattern : String) : Bool :=
  globMatchChars pattern.toList name.toList

/-- The `reductions` section of a reduction manifest. -/
structure Manifest where
  extensions_to_remove : List String
  extension_patterns : List String
  stdlib_to_remove : List String
deriving DecidableEq, Repr

/-- A file-system event performed by `apply_reductions`, in order. -/
inductive FsEvent where
  | readManifest
  | rmtreeCopyTarget
  | copyTree
  | unlinkExtension (f : String)
  | removeStdlibPath (p : String)
deriving DecidableEq, Repr

/-- The file-system facts `apply_reductions` consults: whether the manifest
file, the copy target, the stdlib directory `lib/pythonX.Y` and the
`lib-dynload` directory exist, the files currently in `lib-dynload`, and
which of the manifest's relative stdlib paths exist under the stdlib
directory. -/
structure ReduceEnv where
  manifestExists : Bool
  manifest : Manifest
  copyTo : Option String
  copyTargetExists : Bool
  libDirExists : Bool
  dynloadExists : Bool
  dynloadFiles : List String
  stdlibPresent : List String
deriving DecidableEq, Repr

/-- The extension-removal loop of `apply_reductions`: for each pattern, the
files of `lib-dynload` matching it are unlinked (a file removed by an
earlier pattern is gone for later ones). Returns the surviving files and
the unlink events. -/
def removeExtensionsLoop (patterns : List String) (files : List String) :
    List String × List FsEvent :=
  patterns.foldl
    (fun st pat =>
      let matched := st.1.filter (fun f => globMatch f pat)
      (st.1.filter (fun f => ¬ globMatch f pat),
       st.2 ++ matched.map .unlinkExtension))
    (files, [])

/-- `PythonBuilder.apply_reductions(manifest_path, copy_to)`: returns the
optional result (`None` on a failed guard) together with the ordered list
of file-system events it performed. -/
def apply_reductions (env : ReduceEnv) : Option Unit × List FsEvent :=
  if ¬ env.manifestExists then (none, [])
  else
    let evs := [FsEvent.readManifest]
    let evs := evs ++ (match env.copyTo with
      | some _ =>
        (if env.copyTargetExists then [FsEvent.rmtreeCopyTarget] else []) ++
        [FsEvent.copyTree]
      | none => [])
    if ¬ env.libDirExists then (none, evs)
    else
      let extEvs := if env.dynloadExists then
          (removeExtensionsLoop env.manifest.extension_patterns env.dynloadFiles).2
        else []
      let stdEvs := (env.manifest.stdlib_to_remove.filter
          (fun p => p ∈ env.stdlibPresent)).map FsEvent.removeStdlibPath
      (some (), evs ++ extEvs ++ stdEvs)

/-- Whether an event removes a file or directory. -/
def FsEvent.isRemoval : FsEvent → Bool
  | .readManifest => false
  | .copyTree => false
  | .rmtreeCopyTarget => true
  | .unlinkExtension _ => true
  | .removeStdlibPath _ => true

/-- Whether an event removes something from the target build's library
directories (the deletions the manifest drives). -/
def FsEvent.isLibRemoval : FsEvent → Bool
  | .unlinkExtension _ => true
  | .removeStdlibPath _ => true
  | _ => false

/-- The directory state `ziplib` manipulates: the top-level entries of the
stdlib directory `lib/pythonX.Y`, the entries of the scratch build
directory, the entries of `prefix/lib` besides the stdlib directory, and
the contents of the zip archive once created. -/
structure ZipEnv where
  stdlib : List String
  build : List String
  libEntries : List String
  zipContents : Option (List String)
  precompile : Bool
deriving DecidableEq, Repr

/-- `shutil.move` of a named entry between two directories: fails when the
entry is missing from the source directory. -/
def fsMove (src dst : List String) (name : String) :
    Except Err (List String × List String) :=
  if name ∈ src then .ok (src.erase name, dst ++ [name])
  else .error (.valueError name)

/-- Python `s.endswith(suffix)`, on the underlying character lists. -/
def strEndsWith (s suffix : String) : Bool :=
  suffix.toList.isSuffixOf s.toList

/-- `_precompile_lib` on the top-level entries: `compileall -b` compiles
each `x.py` to `x.pyc` beside it and the walk removes the `.py` sources,
so each top-level `.py` file is renamed to `.pyc`. -/
def precompileNames (entries : List String) : List String :=
  entries.map (fun e => if strEndsWith e ".py" then e ++ "c" else e)

/-- `PythonBuilder.ziplib`: move `lib-dynload` out, optionally precompile,
move the os module out, zip the remaining stdlib, remove and recreate the
stdlib directory with a fresh empty `site-packages`, then move
`lib-dynload` and the os module back. -/
def ziplib (env : ZipEnv) : Except Err ZipEnv := do
  let (stdlib, build) ← fsMove env.stdlib env.build "lib-dynload"
  let osName := if env.precompile then "os.pyc" else "os.py"
  let stdlib := if env.precompile then precompileNames stdlib else stdlib
  let (stdlib, build) ← fsMove stdlib build osName
  let zipContents := some stdlib
  let libEntries := env.libEntries.erase "pkgconfig"
  let stdlib := ["site-packages"]
  let (build, stdlib) ← fsMove build stdlib "lib-dynload"
  let (build, stdlib) ← fsMove build stdlib osName
  pure { env with stdlib := stdlib, build := build, libEntries := libEntries,
                  zipContents := zipContents }

/-- The concatenation of the four buckets; claim C1 says `move_entries`
preserves its multiset of names. -/
def bucketsList (c : Cfg) : List String :=
  c.core ++ c.shared ++ c.static ++ c.disabled

/-! ### Theorems -/

theorem Cfg.get_set_self (c : Cfg) (b : Bucket) (l : List String) :
    (c.set b l).get b = l := by
  cases b <;> rfl

theorem Cfg.get_set_ne (c : Cfg) {b b' : Bucket} (h : b ≠ b') (l : List String) :
    (c.set b' l).get b = c.get b := by
  cases b <;> cases b' <;> first | rfl | exact absurd rfl h

theorem Cfg.extensions_set (c : Cfg) (b : Bucket) (l : List String) :
    (c.set b l).extensions = c.extensions := by
  cases b <;> rfl

/-- Claim C1: for a name present in the source bucket,
`Config.move_entries(src, dst, name)` removes that (first) occurrence from
the `src` bucket, appends the name to the `dst` bucket, and leaves the
other buckets and the extensions table unchanged, so the combined multiset
of names across the four buckets is preserved; for a name not present in
the `src` bucket it raises `ValueError`. -/
theorem move_entries_single_spec (c : Cfg) (src dst : Bucket) (name : String)
    (hne : src ≠ dst) :
    (name ∈ c.get src → ∃ c',
      move_entries c src dst [name] = .ok c' ∧
      c'.get src = (c.get src).erase name ∧
      c'.get dst = c.get dst ++ [name] ∧
      (∀ b, b ≠ src → b ≠ dst → c'.get b = c.get b) ∧
      c'.extensions = c.extensions ∧
      (bucketsList c').Perm (bucketsList c)) ∧
    (name ∉ c.get src →
      move_entries c src dst [name] = .error (.valueError name)) := by
  constructor
  · intro hmem
    have hgd : (c.set src ((c.get src).erase name)).get dst = c.get dst :=
      Cfg.get_set_ne c (Ne.symm hne) _
    refine ⟨(c.set src ((c.get src).erase name)).set dst (c.get dst ++ [name]),
      ?_, ?_, ?_, ?_, ?_, ?_⟩
    · simp [move_entries, List.foldlM, moveOne, listRemove, hmem, hgd]
    · rw [Cfg.get_set_ne _ hne, Cfg.get_set_self]
    · rw [Cfg.get_set_self]
    · intro b hbs hbd
      rw [Cfg.get_set_ne _ hbd, Cfg.get_set_ne _ hbs]
    · rw [Cfg.extensions_set, Cfg.extensions_set]
    · rw [← Multiset.coe_eq_coe]
      have hmem' : name ∈ (↑(c.get src) : Multiset String) := by
        exact_mod_cast hmem
      have hA := Multiset.cons_erase hmem'
      cases src <;> cases dst <;>
        first
        | exact absurd rfl hne
        | (simp only [bucketsList, Cfg.set, Cfg.get, ← Multiset.coe_add,
            ← Multiset.coe_erase, Multiset.coe_singleton] at hA ⊢
           conv_rhs => rw [← hA]
           simp only [← Multiset.singleton_add]
           abel)
  · intro hmem
    simp [move_entries, List.foldlM, moveOne, listRemove, hmem]

/-- Witness for claim C1 at `BASE_CONFIG`, moving `"_ctypes"` from the
disabled bucket to the static bucket. -/
theorem move_entries_single_spec_witness :
    (∃ c', move_entries BASE_CONFIG .disabled .static ["_ctypes"] = .ok c' ∧
      c'.get .disabled = (BASE_CONFIG.get .disabled).erase "_ctypes" ∧
      c'.get .static = BASE_CONFIG.get .static ++ ["_ctypes"] ∧
      (∀ b, b ≠ Bucket.disabled → b ≠ Bucket.static →
        c'.get b = BASE_CONFIG.get b) ∧
      c'.extensions = BASE_CONFIG.extensions ∧
      (bucketsList c').Perm (bucketsList BASE_CONFIG)) ∧
    (move_entries BASE_CONFIG .disabled .static ["xyz"] =
      .error (.valueError "xyz")) :=
  ⟨(move_entries_single_spec BASE_CONFIG .disabled .static "_ctypes"
      (by decide)).1 (by decide),
   (move_entries_single_spec BASE_CONFIG .disabled .static "xyz"
      (by decide)).2 (by decide)⟩

/-- Claim C4: for every command form, `ShellCmd.cmd` returns normally when
the spawned subprocess exits with status zero, and raises `CommandError`
chained from the `CalledProcessError` when it exits nonzero; the outcome is
a single function of the one exit status, so no retry or other recovery is
attempted. -/
theorem shellcmd_cmd_exit_status (shellcmd : CmdArg) (exitStatus : Int) :
    ShellCmd.cmd shellcmd exitStatus =
      if exitStatus = 0 then .ok ()
      else .error ⟨shellcmd, ⟨exitStatus⟩⟩ := by
  cases shellcmd <;> simp only [ShellCmd.cmd, check_call] <;>
    by_cases h : exitStatus = 0 <;> simp [h]

/-- Claim C7: each version's `patch` runs its superclass's `patch` first, so
constructing `PythonConfig311` … `PythonConfig314` from a configuration
table equals applying the 3.11, 3.12, 3.13, 3.14 edit sequences in version
order to that table (the `__init__` deep copy appears here as pure value
passing, so the table passed in is never mutated). -/
theorem python_config_patch_composition (p : Platform) (cfg : Cfg) :
    mkPythonConfig311 p cfg = patch311edits p cfg ∧
    mkPythonConfig312 p cfg =
      ((patch311edits p cfg).bind patch312edits) ∧
    mkPythonConfig313 p cfg =
      (((patch311edits p cfg).bind patch312edits).bind patch313edits) ∧
    mkPythonConfig314 p cfg =
      ((((patch311edits p cfg).bind patch312edits).bind patch313edits).bind
        patch314edits) :=
  ⟨rfl, rfl, rfl, rfl⟩

/-- Claim C8: on Linux, constructing `PythonConfig313` (and therefore
`PythonConfig314`) from `BASE_CONFIG` raises the `ValueError` of
`disabled.remove("ossaudiodev")`, because the inherited 3.11 patch already
moved that name out of the disabled bucket; on Darwin both constructions
return normally. -/
theorem pythonconfig313_linux_value_error :
    mkPythonConfig313 .linux BASE_CONFIG = .error (.valueError "ossaudiodev") ∧
    mkPythonConfig314 .linux BASE_CONFIG = .error (.valueError "ossaudiodev") ∧
    (mkPythonConfig313 .darwin BASE_CONFIG).isOk = true ∧
    (mkPythonConfig314 .darwin BASE_CONFIG).isOk = true :=
  ⟨rfl, rfl, rfl, rfl⟩

/-- Claim C9: on Darwin, for every version constructor and every
build-variant method that returns normally, every name in the core, static
and shared buckets of the resulting configuration is a key of the
extensions table — the precondition `Config.write` needs so that its
extension lookups cannot fail. -/
theorem darwin_variant_bucket_names_have_rules :
    versionConstructors.all (fun mk => buildVariants.all
      (fun variant => variantKeysOk .darwin mk variant)) = true :=
  rfl

theorem mem_requiredExtStep (acc : Finset String) (m x : String) :
    x ∈ requiredExtStep acc m ↔
      x ∈ acc ∨ x ∈ ((stdlibToExtension m).getD []).toFinset ∨
      (x = m ∧ m.startsWith "_") := by
  unfold requiredExtStep
  cases h : stdlibToExtension m <;> cases hu : m.startsWith "_" <;>
    simp [h, hu] <;> tauto

theorem mem_requiredExtLoop_aux (l : List String) (acc : Finset String)
    (x : String) :
    x ∈ l.foldl requiredExtStep acc ↔
      x ∈ acc ∨ ∃ m ∈ l, x ∈ ((stdlibToExtension m).getD []).toFinset ∨
        (x = m ∧ m.startsWith "_") := by
  induction l generalizing acc with
  | nil => simp
  | cons a l ih =>
    rw [List.foldl_cons, ih, mem_requiredExtStep]
    simp only [List.mem_cons]
    constructor
    · rintro ((h | h | h) | ⟨m, hm, h⟩)
      · exact Or.inl h
      · exact Or.inr ⟨a, Or.inl rfl, Or.inl h⟩
      · exact Or.inr ⟨a, Or.inl rfl, Or.inr h⟩
      · exact Or.inr ⟨m, Or.inr hm, h⟩
    · rintro (h | ⟨m, (rfl | hm), h⟩)
      · exact Or.inl (Or.inl h)
      · exact Or.inl (Or.inr h)
      · exact Or.inr ⟨m, hm, h⟩

theorem isSome_of_mem_getD {m x : String}
    (h : x ∈ (stdlibToExtension m).getD []) :
    (stdlibToExtension m).isSome = true := by
  cases hh : stdlibToExtension m <;> simp [hh] at h ⊢

theorem requiredExtLoop_eq_spec (allImports : List String) :
    requiredExtLoop (allImports.filter (fun m => m ∈ STDLIB_MODULES)) =
      requiredExtensionsSpec (allImports.toFinset ∩ STDLIB_SET) := by
  ext x
  rw [requiredExtLoop, mem_requiredExtLoop_aux]
  simp only [Finset.not_mem_empty, false_or, List.mem_filter,
    requiredExtensionsSpec, Finset.mem_union, Finset.mem_biUnion,
    Finset.mem_filter, Finset.mem_inter, List.mem_toFinset, STDLIB_SET,
    decide_eq_true_eq]
  constructor
  · rintro ⟨m, ⟨hma, hms⟩, h | ⟨rfl, hu⟩⟩
    · exact Or.inl ⟨m, ⟨⟨hma, hms⟩, isSome_of_mem_getD h⟩, h⟩
    · exact Or.inr ⟨⟨hma, hms⟩, hu⟩
  · rintro (⟨m, ⟨⟨hma, hms⟩, _⟩, h⟩ | ⟨⟨hma, hms⟩, hu⟩)
    · exact ⟨m, ⟨hma, hms⟩, Or.inl h⟩
    · exact ⟨x, ⟨hma, hms⟩, Or.inr ⟨rfl, hu⟩⟩

/-- Claim C2: `PythonBuilder._analyze_package_deps` computes its result by
pure set arithmetic over the gathered imports: `stdlib_imports` is the
intersection with `STDLIB_MODULES`, `third_party` the difference,
`required_extensions` the union of the `STDLIB_TO_EXTENSION` entries of the
stdlib imports that are keys together with the underscore-prefixed stdlib
imports, `needed_but_disabled` the intersection of the required extensions
with the disabled bucket, and `potentially_unused` the static, shared and
core buckets minus the required extensions minus `CORE_MODULES`. -/
theorem analyze_package_deps_set_arithmetic (allImports : List String)
    (cfg : Cfg) (files : Nat) :
    (analyzePackageDeps allImports cfg files).stdlib_imports =
      allImports.toFinset ∩ STDLIB_SET ∧
    (analyzePackageDeps allImports cfg files).third_party =
      allImports.toFinset \ STDLIB_SET ∧
    (analyzePackageDeps allImports cfg files).required_extensions =
      requiredExtensionsSpec (allImports.toFinset ∩ STDLIB_SET) ∧
    (analyzePackageDeps allImports cfg files).needed_but_disabled =
      requiredExtensionsSpec (allImports.toFinset ∩ STDLIB_SET) ∩
        cfg.disabled.toFinset ∧
    (analyzePackageDeps allImports cfg files).potentially_unused =
      ((cfg.static.toFinset ∪ cfg.shared.toFinset ∪ cfg.core.toFinset) \
        requiredExtensionsSpec (allImports.toFinset ∩ STDLIB_SET)) \
      CORE_MODULES_SET := by
  refine ⟨rfl, rfl, requiredExtLoop_eq_spec allImports, ?_, ?_⟩ <;>
    simp [analyzePackageDeps, requiredExtLoop_eq_spec allImports]

theorem mem_autoConfigureLoop (pu acc : List String) (x : String) :
    x ∈ pu.foldl (fun acc m => if m ∈ CORE_MODULES then acc else acc ++ [m]) acc ↔
      x ∈ acc ∨ (x ∈ pu ∧ x ∉ CORE_MODULES) := by
  induction pu generalizing acc with
  | nil => simp
  | cons a l ih =>
    rw [List.foldl_cons]
    by_cases h : a ∈ CORE_MODULES
    · simp only [if_pos h, ih]
      constructor
      · rintro (hx | ⟨hx1, hx2⟩)
        · exact Or.inl hx
        · exact Or.inr ⟨List.mem_cons_of_mem a hx1, hx2⟩
      · rintro (hx | ⟨hx1, hx2⟩)
        · exact Or.inl hx
        · rcases List.mem_cons.mp hx1 with rfl | hxl
          · exact absurd h hx2
          · exact Or.inr ⟨hxl, hx2⟩
    · simp only [if_neg h, ih, List.mem_append, List.mem_singleton]
      constructor
      · rintro ((hx | rfl) | ⟨hx1, hx2⟩)
        · exact Or.inl hx
        · exact Or.inr ⟨List.mem_cons_self _ _, h⟩
        · exact Or.inr ⟨List.mem_cons_of_mem a hx1, hx2⟩
      · rintro (hx | ⟨hx1, hx2⟩)
        · exact Or.inl (Or.inl hx)
        · rcases List.mem_cons.mp hx1 with rfl | hxl
          · exact Or.inl (Or.inr rfl)
          · exact Or.inr ⟨hxl, hx2⟩

theorem mem_autoReduceLoop (pu acc : List String) (x : String) :
    x ∈ pu.foldl (fun acc m => if m ∉ CORE_MODULES then acc ++ [m] else acc) acc ↔
      x ∈ acc ∨ (x ∈ pu ∧ x ∉ CORE_MODULES) := by
  induction pu generalizing acc with
  | nil => simp
  | cons a l ih =>
    rw [List.foldl_cons]
    by_cases h : a ∉ CORE_MODULES
    · simp only [if_pos h, ih, List.mem_append, List.mem_singleton]
      constructor
      · rintro ((hx | rfl) | ⟨hx1, hx2⟩)
        · exact Or.inl hx
        · exact Or.inr ⟨List.mem_cons_self _ _, h⟩
        · exact Or.inr ⟨List.mem_cons_of_mem a hx1, hx2⟩
      · rintro (hx | ⟨hx1, hx2⟩)
        · exact Or.inl (Or.inl hx)
        · rcases List.mem_cons.mp hx1 with rfl | hxl
          · exact Or.inl (Or.inr rfl)
          · exact Or.inr ⟨hxl, hx2⟩
    · simp only [if_neg h, ih]
      constructor
      · rintro (hx | ⟨hx1, hx2⟩)
        · exact Or.inl hx
        · exact Or.inr ⟨List.mem_cons_of_mem a hx1, hx2⟩
      · rintro (hx | ⟨hx1, hx2⟩)
        · exact Or.inl hx
        · rcases List.mem_cons.mp hx1 with rfl | hxl
          · exact absurd (not_not.mp h) hx2
          · exact Or.inr ⟨hxl, hx2⟩

/-- Claim C10: the `extensions_to_remove` list of the manifest written by
`auto_configure` and of the in-memory manifest built inside `auto_reduce`
is disjoint from `CORE_MODULES`, whatever imports were gathered from the
analyzed packages (`puEnum` enumerates the `potentially_unused` set of the
analysis the manifest is built from). -/
theorem reduction_manifest_core_disjoint (allImports : List String)
    (cfg : Cfg) (files : Nat) (puEnum : List String)
    (_henum : puEnum.toFinset =
      (analyzePackageDeps allImports cfg files).potentially_unused) :
    (autoConfigureManifestExtensions puEnum).toFinset ∩ CORE_MODULES_SET = ∅ ∧
    (autoReduceManifestExtensions puEnum).toFinset ∩ CORE_MODULES_SET = ∅ := by
  constructor <;>
  · apply Finset.eq_empty_of_forall_not_mem
    intro x hx
    rw [Finset.mem_inter, List.mem_toFinset] at hx
    obtain ⟨hx1, hx2⟩ := hx
    rw [CORE_MODULES_SET, List.mem_toFinset] at hx2
    first
    | rw [autoConfigureManifestExtensions, pySorted, List.mem_mergeSort,
        autoConfigureExtensionsToRemove, mem_autoConfigureLoop] at hx1
    | rw [autoReduceManifestExtensions, pySorted, List.mem_mergeSort,
        autoReduceExtensionsToRemove, mem_autoReduceLoop] at hx1
    rcases hx1 with h | ⟨_, h⟩
    · simp at h
    · exact h hx2

/-- Witness for claim C10 at a concrete analysis: no packages analyzed and
an empty configuration, whose `potentially_unused` set is empty. -/
theorem reduction_manifest_core_disjoint_witness :
    (autoConfigureManifestExtensions []).toFinset ∩ CORE_MODULES_SET = ∅ ∧
    (autoReduceManifestExtensions []).toFinset ∩ CORE_MODULES_SET = ∅ :=
  reduction_manifest_core_disjoint [] ⟨[], [], [], [], [], []⟩ 0 [] (by decide)

theorem mapM_ok_of_forall {α β : Type} (l : List α) (f : α → Except Err β)
    (g : α → β) (h : ∀ x ∈ l, f x = .ok (g x)) :
    l.mapM f = .ok (l.map g) := by
  induction l with
  | nil => rfl
  | cons a t ih =>
    rw [List.map_cons, List.mapM_cons, h a (List.mem_cons_self a t),
      ih (fun x hx => h x (List.mem_cons_of_mem a hx))]
    rfl

theorem dictGet_isSome_of_dictHas {d : ExtDict} {k : String}
    (h : dictHas d k = true) : (dictGet d k).isSome = true := by
  rw [dictHas, List.any_eq_true] at h
  obtain ⟨p, hp, hpk⟩ := h
  rw [dictGet]
  have : (List.find? (fun p => p.1 == k) d).isSome = true :=
    List.find?_isSome.mpr ⟨p, hp, hpk⟩
  cases hf : List.find? (fun p => p.1 == k) d with
  | none => rw [hf] at this; simp at this
  | some q => rfl

theorem extLine_eq_of_has {c : Cfg} {i : String}
    (h : dictHas c.extensions i = true) :
    extLine c i = .ok (specEntryLine c i) := by
  have hs := dictGet_isSome_of_dictHas h
  rw [extLine, specEntryLine]
  cases hg : dictGet c.extensions i with
  | none => rw [hg] at hs; simp at hs
  | some v => simp [hg]

theorem sectionLines_eq_spec {c : Cfg} {b : Bucket}
    (h : ∀ i ∈ c.get b, b ≠ .disabled → dictHas c.extensions i = true) :
    sectionLines c b = .ok (specSection c b) := by
  rw [sectionLines, specSection]
  by_cases he : c.get b = []
  · simp [he]
  · rw [if_neg he, if_neg he]
    have hmap : (pySorted (c.get b)).mapM
        (fun i => if b = .disabled then .ok i else extLine c i) =
        .ok ((pySorted (c.get b)).map
          (fun i => if b = .disabled then i else specEntryLine c i)) := by
      apply mapM_ok_of_forall
      intro x hx
      by_cases hb : b = .disabled
      · simp [hb]
      · have hxmem : x ∈ c.get b := by
          rw [pySorted, List.mem_mergeSort] at hx
          exact hx
        simp [hb, extLine_eq_of_has (h x hxmem hb)]
    rw [hmap]
    rfl

/-- Claim C3: for a configuration whose variant method returns normally
(and whose bucket names all have extension build rules, so the lookups
cannot fail), `Config.write` produces exactly the makefile-style text the
claim describes — the header lines, every core entry in table order with
its build-rule strings, then the shared, static and disabled sections in
that order, each sorted alphabetically, with bare names in the disabled
section and whole sections omitted when their bucket is empty — and
`Config.write_json` instead serializes the whole cfg dict as JSON. -/
theorem config_write_spec (variant : Cfg → Except Err Cfg) (c0 c : Cfg)
    (hv : variant c0 = .ok c)
    (hkeys : allBucketNamesHaveRules c = true) :
    Config.write variant c0 = .ok (writeSpecLines c0 c) ∧
    Config.write_json variant c0 = .ok (cfgToJson c) := by
  rw [allBucketNamesHaveRules, List.all_eq_true] at hkeys
  have hcore : c.core.mapM (extLine c) = .ok (c.core.map (specEntryLine c)) :=
    mapM_ok_of_forall _ _ _ (fun x hx =>
      extLine_eq_of_has (hkeys x (by simp [hx])))
  have hsec : ∀ b : Bucket, b ≠ .core →
      sectionLines c b = .ok (specSection c b) := by
    intro b hb
    apply sectionLines_eq_spec
    intro i hi hbd
    cases b with
    | core => exact absurd rfl hb
    | shared => exact hkeys i (by simp [Cfg.get] at hi ⊢; tauto)
    | static => exact hkeys i (by simp [Cfg.get] at hi ⊢; tauto)
    | disabled => exact absurd rfl hbd
  constructor
  · rw [Config.write, writeSpecLines]
    rw [hv]
    show (c.core.mapM (extLine c)).bind _ = _
    rw [hcore]
    show (sectionLines c .shared).bind _ = _
    rw [hsec .shared (by decide)]
    show (sectionLines c .static).bind _ = _
    rw [hsec .static (by decide)]
    show (sectionLines c .disabled).bind _ = _
    rw [hsec .disabled (by decide)]
    rfl
  · rw [Config.write_json, hv]
    rfl

/-- Witness for claim C3: `BASE_CONFIG` with the `static_max` variant
method (which edits nothing). -/
theorem config_write_spec_witness :
    Config.write (static_max .darwin) BASE_CONFIG =
      .ok (writeSpecLines BASE_CONFIG BASE_CONFIG) ∧
    Config.write_json (static_max .darwin) BASE_CONFIG =
      .ok (cfgToJson BASE_CONFIG) :=
  config_write_spec (static_max .darwin) BASE_CONFIG BASE_CONFIG rfl (by rfl)

/-- Counterexample to claim C5 as stated: when `copy_to` names an existing
directory, `apply_reductions` removes that directory and copies the build
into it before checking the stdlib directory, so with the stdlib directory
missing it returns `None` having already removed files. -/
theorem apply_reductions_guard_counterexample :
    (apply_reductions
      { manifestExists := true,
        manifest := { extensions_to_remove := [], extension_patterns := [],
                      stdlib_to_remove := [] },
        copyTo := some "build/reduced", copyTargetExists := true,
        libDirExists := false, dynloadExists := false, dynloadFiles := [],
        stdlibPresent := [] }).1 = none ∧
    (apply_reductions
      { manifestExists := true,
        manifest := { extensions_to_remove := [], extension_patterns := [],
                      stdlib_to_remove := [] },
        copyTo := some "build/reduced", copyTargetExists := true,
        libDirExists := false, dynloadExists := false, dynloadFiles := [],
        stdlibPresent := [] }).2.any FsEvent.isRemoval = true :=
  ⟨rfl, rfl⟩

/-- Claim C5 (amended): if the manifest file does not exist,
`apply_reductions` returns `None` without reading, copying or removing
anything; if the stdlib directory does not exist it returns `None` without
removing any file from the build's library directories — and, in the
default no-`copy_to` case, without removing any file at all, though with
`copy_to` set the preliminary copy (which replaces an existing target
directory) has already happened; only when both guards pass does it delete
the extension files matching the manifest's patterns from `lib-dynload`
and the listed existing stdlib paths. -/
theorem apply_reductions_guards_amended (env : ReduceEnv) :
    (env.manifestExists = false → apply_reductions env = (none, [])) ∧
    (env.manifestExists = true → env.libDirExists = false →
      (apply_reductions env).1 = none ∧
      (∀ e ∈ (apply_reductions env).2, e.isLibRemoval = false) ∧
      (env.copyTo = none → ∀ e ∈ (apply_reductions env).2,
        e.isRemoval = false)) ∧
    (env.manifestExists = true → env.libDirExists = true →
      apply_reductions env = (some (),
        [FsEvent.readManifest] ++
        (match env.copyTo with
          | some _ =>
            (if env.copyTargetExists then [FsEvent.rmtreeCopyTarget] else []) ++
            [FsEvent.copyTree]
          | none => []) ++
        (if env.dynloadExists then
          (removeExtensionsLoop env.manifest.extension_patterns
            env.dynloadFiles).2
        else []) ++
        (env.manifest.stdlib_to_remove.filter
          (fun p => p ∈ env.stdlibPresent)).map FsEvent.removeStdlibPath)) := by
  refine ⟨?_, ?_, ?_⟩
  · intro h
    simp [apply_reductions, h]
  · intro hm hl
    refine ⟨?_, ?_, ?_⟩
    · simp [apply_reductions, hm, hl]
    · intro e he
      rw [apply_reductions] at he
      simp only [hm, hl] at he
      rcases henv : env.copyTo with _ | t <;>
        rcases hct : env.copyTargetExists <;>
        simp [henv, hct] at he <;>
        rcases he with rfl | rfl | rfl <;> rfl
    · intro hc e he
      rw [apply_reductions] at he
      simp only [hm, hl, hc] at he
      simp at he
      subst he
      rfl
  · intro hm hl
    rw [apply_reductions]
    simp [hm, hl, List.append_assoc]

/-- Witness for claim C5 (amended), at three concrete states: a missing
manifest, a missing stdlib directory without `copy_to`, and both guards
passing with one matching extension file and one listed stdlib path. -/
theorem apply_reductions_guards_amended_witness :
    (apply_reductions
      { manifestExists := false,
        manifest := { extensions_to_remove := [], extension_patterns := [],
                      stdlib_to_remove := [] },
        copyTo := none, copyTargetExists := false, libDirExists := true,
        dynloadExists := false, dynloadFiles := [], stdlibPresent := [] }) =
      (none, []) ∧
    (∀ e ∈ (apply_reductions
      { manifestExists := true,
        manifest := { extensions_to_remove := [], extension_patterns := [],
                      stdlib_to_remove := ["json/"] },
        copyTo := none, copyTargetExists := false, libDirExists := false,
        dynloadExists := true,
        dynloadFiles := ["_bz2.cpython-313-darwin.so"],
        stdlibPresent := ["json/"] }).2, e.isRemoval = false) ∧
    (apply_reductions
      { manifestExists := true,
        manifest := { extensions_to_remove := ["_bz2"],
                      extension_patterns := ["_bz2.cpython-*.so"],
                      stdlib_to_remove := ["json/", "test/"] },
        copyTo := none, copyTargetExists := false, libDirExists := true,
        dynloadExists := true,
        dynloadFiles := ["_bz2.cpython-313-darwin.so",
                         "_ssl.cpython-313-darwin.so"],
        stdlibPresent := ["json/"] }) =
      (some (), [FsEvent.readManifest,
        FsEvent.unlinkExtension "_bz2.cpython-313-darwin.so",
        FsEvent.removeStdlibPath "json/"]) :=
 by
  refine ⟨(apply_reductions_guards_amended _).1 rfl,
    ((apply_reductions_guards_amended _).2.1 rfl rfl).2.2 rfl, ?_⟩
  rw [(apply_reductions_guards_amended _).2.2 rfl rfl]
  rfl

/-- Claim C6: `ziplib` moves `lib-dynload` and the os module (`os.pyc`
when precompiling, `os.py` otherwise) out of the stdlib directory before
creating the zip archive and moves both back afterwards: afterwards the
prefix holds the archive and the recreated stdlib directory holds exactly
a fresh empty `site-packages`, `lib-dynload`, and the preserved os module,
while the rest of the stdlib is exactly the contents of the zip; the
scratch build directory is left as it was. -/
theorem bind_ok_eq {α β : Type} (a : α) (f : α → Except Err β) :
    (Except.ok a >>= f : Except Err β) = f a := rfl

theorem ziplib_spec (env : ZipEnv)
    (hdyn : "lib-dynload" ∈ env.stdlib)
    (hos : "os.py" ∈ env.stdlib)
    (hbd : "lib-dynload" ∉ env.build)
    (hbo : (if env.precompile then "os.pyc" else "os.py") ∉ env.build) :
    ziplib env = .ok
      { stdlib := ["site-packages", "lib-dynload",
          if env.precompile then "os.pyc" else "os.py"],
        build := env.build,
        libEntries := env.libEntries.erase "pkgconfig",
        zipContents := some ((if env.precompile then
            precompileNames (env.stdlib.erase "lib-dynload")
          else env.stdlib.erase "lib-dynload").erase
            (if env.precompile then "os.pyc" else "os.py")),
        precompile := env.precompile } := by
  obtain ⟨stdlib, build, libEntries, zipContents, precompile⟩ := env
  simp only at hdyn hos hbd hbo ⊢
  cases precompile
  · simp only [Bool.false_eq_true, if_false] at hbo ⊢
    have h1 : "os.py" ∈ stdlib.erase "lib-dynload" :=
      (List.mem_erase_of_ne (by decide)).mpr hos
    have e3 : ((build ++ ["lib-dynload", "os.py"]).erase
        "lib-dynload").erase "os.py" = build := by
      rw [List.erase_append_right _ hbd]
      show (build ++ ["os.py"]).erase "os.py" = build
      rw [List.erase_append_right _ hbo]
      simp
    simp [ziplib, fsMove, bind_ok_eq, hdyn, h1, e3]
  · simp only [eq_self_iff_true, if_true] at hbo ⊢
    have h1 : "os.pyc" ∈ precompileNames (stdlib.erase "lib-dynload") :=
      List.mem_map.mpr ⟨"os.py", (List.mem_erase_of_ne (by decide)).mpr hos,
        by decide⟩
    have e3 : ((build ++ ["lib-dynload", "os.pyc"]).erase
        "lib-dynload").erase "os.pyc" = build := by
      rw [List.erase_append_right _ hbd]
      show (build ++ ["os.pyc"]).erase "os.pyc" = build
      rw [List.erase_append_right _ hbo]
      simp
    simp [ziplib, fsMove, bind_ok_eq, hdyn, h1, e3]

/-- Witness for claim C6: a small stdlib directory, without and with
precompilation. -/
theorem ziplib_spec_witness :
    ziplib { stdlib := ["lib-dynload", "os.py", "abc.py", "encodings",
               "site-packages"],
             build := [], libEntries := ["pkgconfig"], zipContents := none,
             precompile := false } = .ok
      { stdlib := ["site-packages", "lib-dynload", "os.py"],
        build := [], libEntries := [],
        zipContents := some ["os.py", "abc.py", "encodings",
          "site-packages"].tail,
        precompile := false } ∧
    ziplib { stdlib := ["lib-dynload", "os.py", "abc.py", "encodings",
               "site-packages"],
             build := [], libEntries := [], zipContents := none,
             precompile := true } = .ok
      { stdlib := ["site-packages", "lib-dynload", "os.pyc"],
        build := [], libEntries := [],
        zipContents := some ["abc.pyc", "encodings", "site-packages"],
        precompile := true } := by
  constructor
  · rw [ziplib_spec _ (by decide) (by decide) (by decide) (by decide)]
    rfl
  · rw [ziplib_spec _ (by decide) (by decide) (by decide) (by decide)]
    rfl

end BuildPy
